import Mathlib

/-!
Verification of the two AWS Lambda request handlers of `aws-hello-world-api`
(`src/handlers/hello.js` and `src/handlers/health.js`), shallowly embedded in
Lean 4.

Modelling conventions:
* JavaScript objects that are serialised with `JSON.stringify` are modelled by
  the inductive `Json` below; a response `body` holds the `Json` document that
  the produced string encodes.
* `process.env.X` is an `Option String` field of `Env` (`none` = variable not
  set, `some s` = set to the string `s`, which may be empty).
* The JavaScript `x || d` fallback on strings (which also replaces the empty
  string, the only falsy string, by the default) is `jsOr`.
* Values read from the outside world during one invocation (timestamps from
  `new Date()` / `Date.now()`, the heap sample from `process.memoryUsage()`,
  and whether an exception is raised inside the handler's `try` block) are
  passed explicitly in a `World` structure; `thrown = some msg` means the try
  body raises an exception with message `msg`, which the `catch` branch
  handles.
* The float expression `(used.heapUsed / maxMemory) * 100` of `checkMemory`
  is modelled with exact rational arithmetic.
* `console.log` output is a side effect with no influence on the returned
  value and is not modelled.
-/

/-- A JSON value, as produced by `JSON.stringify` on the plain data the
handlers build (strings, numbers and objects suffice here). -/
inductive Json where
  | str (s : String) : Json
  | num (n : Int) : Json
  | obj (fields : List (String × Json)) : Json

/-- Field access on a JSON object (first binding wins, as for the
object literals in the source, whose keys are distinct anyway). -/
def Json.lookup : Json → String → Option Json
  | Json.obj fields, k => fields.lookup k
  | _, _ => none

/-- Field access returning the string content of a string-valued field. -/
def Json.lookupStr (j : Json) (k : String) : Option String :=
  match j.lookup k with
  | some (Json.str s) => some s
  | _ => none

/-- Whether a JSON value is an object. -/
def Json.isObj : Json → Bool
  | Json.obj _ => true
  | _ => false

/-- The caller identity nested in the API Gateway request context
(`event.requestContext.identity`); only `sourceIp` is read, for logging. -/
structure Identity where
  sourceIp : Option String

/-- The API Gateway request context (`event.requestContext`). -/
structure RequestContext where
  requestId : Option String
  identity : Option Identity

/-- The API Gateway Lambda proxy input event; the handlers read only these
fields. -/
structure Event where
  httpMethod : Option String
  path : Option String
  requestContext : Option RequestContext

/-- The process environment variables the handlers read
(`process.env.API_VERSION`, `process.env.ENVIRONMENT`,
`process.env.AWS_REGION`); `none` means the variable is not set. -/
structure Env where
  API_VERSION : Option String
  ENVIRONMENT : Option String
  AWS_REGION : Option String

/-- The API Gateway Lambda proxy output: `statusCode`, a string-to-string
header map, and the JSON document of the stringified `body`. -/
structure Response where
  statusCode : Nat
  headers : List (String × String)
  body : Json

/-- Header access on a response. -/
def Response.headerVal (r : Response) (k : String) : Option String :=
  r.headers.lookup k

/-- Access to one entry of the `checks` map inside a response body. -/
def Response.checkVal (r : Response) (k : String) : Option String :=
  match r.body.lookup "checks" with
  | some c => c.lookupStr k
  | none => none

/-- The JavaScript fallback `v || d` applied to a string that may be absent:
an absent value and the empty string (the only falsy string) both fall back
to the default `d`. -/
def jsOr (v : Option String) (d : String) : String :=
  match v with
  | none => d
  | some s => if s = "" then d else s

/-- The requestId extraction `event.requestContext?.requestId || 'unknown'`
shared by both handlers (line 22 of each file). -/
def extractRequestId (event : Event) : String :=
  jsOr (event.requestContext.bind fun rc => rc.requestId) "unknown"

namespace Health

/-- `maxMemory` of `checkMemory`: 128 MiB in bytes. -/
def maxMemory : Nat := 128 * 1024 * 1024

/-- `percentUsed` of `checkMemory`: heap usage as a percentage of the fixed
128 MiB budget, in exact rational arithmetic. -/
def heapPercent (heapUsed : Nat) : ℚ :=
  ((heapUsed : ℚ) / (maxMemory : ℚ)) * 100

/-- `checkMemory` of `health.js` (lines 101-112): classify the sampled heap
usage into `unhealthy` (`percentUsed > 90`), `warning` (`percentUsed > 70`)
or `healthy`. The comparison `percentUsed > q` is written in the equivalent
cross-multiplied integer form `100 * heapUsed > q * maxMemory`, which keeps
the definition executable by the kernel; `heapPercent_gt_90_iff` and
`heapPercent_gt_70_iff` below prove it equivalent to the literal percentage
form. -/
def checkMemory (heapUsed : Nat) : String :=
  if 100 * heapUsed > 90 * maxMemory then "unhealthy"
  else if 100 * heapUsed > 70 * maxMemory then "warning"
  else "healthy"

/-- The outside-world inputs of one health-handler invocation: the ISO
timestamp, the sampled `heapUsed`, and whether the try body throws. -/
structure World where
  now : String
  heapUsed : Nat
  thrown : Option String

/-- The health-check handler of `health.js` (lines 21-95). -/
def handler (event : Event) (env : Env) (w : World) : Response :=
  let requestId := extractRequestId event
  match w.thrown with
  | some _ =>
    { statusCode := 503
      headers := [("Content-Type", "application/json"),
                  ("Access-Control-Allow-Origin", "*"),
                  ("Cache-Control", "no-cache, no-store, must-revalidate"),
                  ("X-Request-Id", requestId)]
      body := Json.obj [("status", Json.str "unhealthy"),
                        ("timestamp", Json.str w.now),
                        ("error", Json.str "Health check encountered an error"),
                        ("requestId", Json.str requestId)] }
  | none =>
    let healthChecks : List (String × String) :=
      [("lambda", "healthy"),
       ("memory", checkMemory w.heapUsed),
       ("environment", jsOr env.ENVIRONMENT "dev"),
       ("region", jsOr env.AWS_REGION "unknown")]
    let isHealthy := healthChecks.all fun p => p.2 != "unhealthy"
    { statusCode := if isHealthy then 200 else 503
      headers := [("Content-Type", "application/json"),
                  ("Access-Control-Allow-Origin", "*"),
                  ("Cache-Control", "no-cache, no-store, must-revalidate"),
                  ("X-Request-Id", requestId)]
      body := Json.obj [("status", Json.str (if isHealthy then "healthy" else "degraded")),
                        ("timestamp", Json.str w.now),
                        ("checks", Json.obj (healthChecks.map fun p => (p.1, Json.str p.2))),
                        ("version", Json.str (jsOr env.API_VERSION "1.0.0"))] }

end Health

namespace Hello

/-- The outside-world inputs of one greeting-handler invocation: the ISO
timestamp, the two `Date.now()` samples, and whether the try body throws. -/
structure World where
  now : String
  startTime : Nat
  endTime : Nat
  thrown : Option String

/-- The greeting handler of `hello.js` (lines 21-91). -/
def handler (event : Event) (env : Env) (w : World) : Response :=
  let requestId := extractRequestId event
  match w.thrown with
  | some _ =>
    { statusCode := 500
      headers := [("Content-Type", "application/json"),
                  ("Access-Control-Allow-Origin", "*"),
                  ("X-Request-Id", requestId)]
      body := Json.obj [("error", Json.str "Internal Server Error"),
                        ("message", Json.str "An error occurred while processing your request"),
                        ("requestId", Json.str requestId)] }
  | none =>
    let responseData := Json.obj
      [("message", Json.str "Hello World!"),
       ("timestamp", Json.str w.now),
       ("requestId", Json.str requestId),
       ("version", Json.str (jsOr env.API_VERSION "1.0.0")),
       ("environment", Json.str (jsOr env.ENVIRONMENT "dev"))]
    let processingTime := w.endTime - w.startTime
    { statusCode := 200
      headers := [("Content-Type", "application/json"),
                  ("Access-Control-Allow-Origin", "*"),
                  ("Access-Control-Allow-Headers", "Content-Type,X-Amz-Date,Authorization,X-Api-Key,X-Amz-Security-Token"),
                  ("Access-Control-Allow-Methods", "GET,OPTIONS"),
                  ("X-Request-Id", requestId),
                  ("X-Processing-Time", toString processingTime ++ "ms")]
      body := responseData }

end Hello

/-! ### Test fixtures: concrete inputs used by witnesses and counterexamples -/

/-- An event with every optional field absent. -/
def emptyEvent : Event := ⟨none, none, none⟩

/-- A process environment with none of the three variables set. -/
def emptyEnv : Env := ⟨none, none, none⟩

/-- The scenario event of the spec: `GET /hello` with requestId `abc-1`. -/
def evAbc : Event := ⟨some "GET", some "/hello", some ⟨some "abc-1", none⟩⟩

/-! ### Helper lemmas about `jsOr` and the memory classifier -/

/-- `jsOr` of a present, non-empty string is that string. -/
lemma jsOr_some_of_ne (s d : String) (hs : s ≠ "") : jsOr (some s) d = s := by
  simp [jsOr, hs]

/-- `jsOr` never returns the empty string when its default is non-empty. -/
lemma jsOr_ne_empty (v : Option String) (d : String) (hd : d ≠ "") : jsOr v d ≠ "" := by
  unfold jsOr
  cases v with
  | none => exact hd
  | some s =>
    by_cases hs : s = ""
    · simp [hs, hd]
    · simp [hs]

namespace Health

/-- The 128 MiB budget as a rational. -/
lemma maxMemory_q : ((maxMemory : Nat) : ℚ) = 134217728 := by norm_num [maxMemory]

/-- The cross-multiplied form of `percentUsed > 90`. -/
lemma heapPercent_gt_90_iff (h : Nat) :
    heapPercent h > 90 ↔ 100 * h > 90 * maxMemory := by
  rw [heapPercent, maxMemory_q, gt_iff_lt, div_mul_eq_mul_div, lt_div_iff₀ (by norm_num)]
  rw [show maxMemory = 134217728 from rfl]
  constructor
  · intro hx
    have hx2 : ((90 * 134217728 : Nat) : ℚ) < ((100 * h : Nat) : ℚ) := by
      push_cast at hx ⊢
      linarith
    exact_mod_cast hx2
  · intro hx
    have hx2 : ((90 * 134217728 : Nat) : ℚ) < ((100 * h : Nat) : ℚ) := by exact_mod_cast hx
    push_cast at hx2
    linarith

/-- The cross-multiplied form of `percentUsed > 70`. -/
lemma heapPercent_gt_70_iff (h : Nat) :
    heapPercent h > 70 ↔ 100 * h > 70 * maxMemory := by
  rw [heapPercent, maxMemory_q, gt_iff_lt, div_mul_eq_mul_div, lt_div_iff₀ (by norm_num)]
  rw [show maxMemory = 134217728 from rfl]
  constructor
  · intro hx
    have hx2 : ((70 * 134217728 : Nat) : ℚ) < ((100 * h : Nat) : ℚ) := by
      push_cast at hx ⊢
      linarith
    exact_mod_cast hx2
  · intro hx
    have hx2 : ((70 * 134217728 : Nat) : ℚ) < ((100 * h : Nat) : ℚ) := by exact_mod_cast hx
    push_cast at hx2
    linarith

/-- The cross-multiplied form of `percentUsed ≤ 90`. -/
lemma heapPercent_le_90_iff (h : Nat) :
    heapPercent h ≤ 90 ↔ 100 * h ≤ 90 * maxMemory := by
  rw [← not_lt, ← not_lt]
  exact not_congr (heapPercent_gt_90_iff h)

/-- The cross-multiplied form of `percentUsed ≤ 70`. -/
lemma heapPercent_le_70_iff (h : Nat) :
    heapPercent h ≤ 70 ↔ 100 * h ≤ 70 * maxMemory := by
  rw [← not_lt, ← not_lt]
  exact not_congr (heapPercent_gt_70_iff h)

/-- `checkMemory` in the > 90 % band. -/
lemma checkMemory_of_gt_90 (h : Nat) (h90 : heapPercent h > 90) :
    checkMemory h = "unhealthy" := by
  unfold checkMemory
  rw [if_pos ((heapPercent_gt_90_iff h).1 h90)]

/-- `checkMemory` in the (70 %, 90 %] band. -/
lemma checkMemory_of_warning_band (h : Nat) (h70 : heapPercent h > 70)
    (h90 : heapPercent h ≤ 90) :
    checkMemory h = "warning" := by
  have h90n : ¬(100 * h > 90 * maxMemory) := by
    intro hx
    exact absurd ((heapPercent_gt_90_iff h).2 hx) (not_lt.2 h90)
  unfold checkMemory
  rw [if_neg h90n, if_pos ((heapPercent_gt_70_iff h).1 h70)]

/-- `checkMemory` in the ≤ 70 % band. -/
lemma checkMemory_of_le_70 (h : Nat) (h70 : heapPercent h ≤ 70) :
    checkMemory h = "healthy" := by
  have h70n : ¬100 * h > 70 * maxMemory := by
    rw [← heapPercent_gt_70_iff, not_lt]
    exact h70
  have h90n : ¬100 * h > 90 * maxMemory := by
    intro hx
    exact h70n (lt_of_le_of_lt (Nat.mul_le_mul_right maxMemory (by norm_num)) hx)
  unfold checkMemory
  rw [if_neg h90n, if_neg h70n]

end Health

/-! ### Shape lemmas: the handlers evaluated on each branch of the catch -/

/-- Both branches of the greeting handler echo the extracted requestId in the
`X-Request-Id` header. -/
lemma hello_headerVal_requestId (event : Event) (env : Env) (w : Hello.World) :
    (Hello.handler event env w).headerVal "X-Request-Id" = some (extractRequestId event) := by
  cases hth : w.thrown with
  | some e =>
    unfold Hello.handler
    rw [hth]
    rfl
  | none =>
    unfold Hello.handler
    rw [hth]
    rfl

/-- Both branches of the health handler echo the extracted requestId in the
`X-Request-Id` header. -/
lemma health_headerVal_requestId (event : Event) (env : Env) (w : Health.World) :
    (Health.handler event env w).headerVal "X-Request-Id" = some (extractRequestId event) := by
  cases hth : w.thrown with
  | some e =>
    unfold Health.handler
    rw [hth]
    rfl
  | none =>
    unfold Health.handler
    rw [hth]
    rfl

/-- The greeting handler's successful response, fully evaluated. -/
lemma hello_handler_none_eq (event : Event) (env : Env) (w : Hello.World)
    (hth : w.thrown = none) :
    Hello.handler event env w =
      { statusCode := 200
        headers := [("Content-Type", "application/json"),
                    ("Access-Control-Allow-Origin", "*"),
                    ("Access-Control-Allow-Headers", "Content-Type,X-Amz-Date,Authorization,X-Api-Key,X-Amz-Security-Token"),
                    ("Access-Control-Allow-Methods", "GET,OPTIONS"),
                    ("X-Request-Id", extractRequestId event),
                    ("X-Processing-Time", toString (w.endTime - w.startTime) ++ "ms")]
        body := Json.obj
          [("message", Json.str "Hello World!"),
           ("timestamp", Json.str w.now),
           ("requestId", Json.str (extractRequestId event)),
           ("version", Json.str (jsOr env.API_VERSION "1.0.0")),
           ("environment", Json.str (jsOr env.ENVIRONMENT "dev"))] } := by
  unfold Hello.handler
  rw [hth]

/-- The greeting handler's catch-branch response, fully evaluated. -/
lemma hello_handler_some_eq (event : Event) (env : Env) (w : Hello.World) (e : String)
    (hth : w.thrown = some e) :
    Hello.handler event env w =
      { statusCode := 500
        headers := [("Content-Type", "application/json"),
                    ("Access-Control-Allow-Origin", "*"),
                    ("X-Request-Id", extractRequestId event)]
        body := Json.obj
          [("error", Json.str "Internal Server Error"),
           ("message", Json.str "An error occurred while processing your request"),
           ("requestId", Json.str (extractRequestId event))] } := by
  unfold Hello.handler
  rw [hth]

/-- The health handler's successful response, fully evaluated; the
`isHealthy` conjunction is in the exact shape `List.all` reduces to. -/
lemma health_handler_none_eq (event : Event) (env : Env) (w : Health.World)
    (hth : w.thrown = none) :
    Health.handler event env w =
      { statusCode :=
          if (Health.checkMemory w.heapUsed != "unhealthy") &&
             ((jsOr env.ENVIRONMENT "dev" != "unhealthy") &&
              ((jsOr env.AWS_REGION "unknown" != "unhealthy") && true)) then 200 else 503
        headers := [("Content-Type", "application/json"),
                    ("Access-Control-Allow-Origin", "*"),
                    ("Cache-Control", "no-cache, no-store, must-revalidate"),
                    ("X-Request-Id", extractRequestId event)]
        body := Json.obj
          [("status", Json.str
              (if (Health.checkMemory w.heapUsed != "unhealthy") &&
                  ((jsOr env.ENVIRONMENT "dev" != "unhealthy") &&
                   ((jsOr env.AWS_REGION "unknown" != "unhealthy") && true)) then "healthy"
               else "degraded")),
           ("timestamp", Json.str w.now),
           ("checks", Json.obj
              [("lambda", Json.str "healthy"),
               ("memory", Json.str (Health.checkMemory w.heapUsed)),
               ("environment", Json.str (jsOr env.ENVIRONMENT "dev")),
               ("region", Json.str (jsOr env.AWS_REGION "unknown"))]),
           ("version", Json.str (jsOr env.API_VERSION "1.0.0"))] } := by
  unfold Health.handler
  rw [hth]
  rfl

/-- The health handler's catch-branch response, fully evaluated. -/
lemma health_handler_some_eq (event : Event) (env : Env) (w : Health.World) (e : String)
    (hth : w.thrown = some e) :
    Health.handler event env w =
      { statusCode := 503
        headers := [("Content-Type", "application/json"),
                    ("Access-Control-Allow-Origin", "*"),
                    ("Cache-Control", "no-cache, no-store, must-revalidate"),
                    ("X-Request-Id", extractRequestId event)]
        body := Json.obj
          [("status", Json.str "unhealthy"),
           ("timestamp", Json.str w.now),
           ("error", Json.str "Health check encountered an error"),
           ("requestId", Json.str (extractRequestId event))] } := by
  unfold Health.handler
  rw [hth]

/-! ### Claims -/

/-- C2: the memory classification function maps a heap sample against the
fixed 128 MiB budget into exactly three bands: at most 70 % of the budget is
`healthy`, more than 70 % and at most 90 % is `warning`, and more than 90 %
is `unhealthy`, for every heap-usage value. -/
theorem C2_checkMemory_three_bands (h : Nat) :
    (Health.heapPercent h ≤ 70 → Health.checkMemory h = "healthy") ∧
    (Health.heapPercent h > 70 → Health.heapPercent h ≤ 90 → Health.checkMemory h = "warning") ∧
    (Health.heapPercent h > 90 → Health.checkMemory h = "unhealthy") :=
  ⟨Health.checkMemory_of_le_70 h,
   Health.checkMemory_of_warning_band h,
   Health.checkMemory_of_gt_90 h⟩

/-- Witness for C2: one heap sample in each band (69.999… %, 78.125 % and
99.21875 % of 128 MiB). -/
theorem C2_checkMemory_three_bands_witness :
    Health.checkMemory 93952409 = "healthy" ∧
    Health.checkMemory 104857600 = "warning" ∧
    Health.checkMemory 133169152 = "unhealthy" :=
  ⟨(C2_checkMemory_three_bands 93952409).1
     ((Health.heapPercent_le_70_iff 93952409).2 (by decide)),
   (C2_checkMemory_three_bands 104857600).2.1
     ((Health.heapPercent_gt_70_iff 104857600).2 (by decide))
     ((Health.heapPercent_le_90_iff 104857600).2 (by decide)),
   (C2_checkMemory_three_bands 133169152).2.2
     ((Health.heapPercent_gt_90_iff 133169152).2 (by decide))⟩

/-- C1 counterexample: the overall status is computed from every entry of the
checks map, so the claim as stated fails: with `ENVIRONMENT` set to the
literal string `unhealthy` and a heap sample of 78.125 % (inside the warning
band), `checks.memory` is `warning` but the overall status is `degraded` and
the statusCode 503, not `healthy` / 200. -/
theorem C1_warning_band_counterexample :
    Health.heapPercent 104857600 > 70 ∧
    Health.heapPercent 104857600 ≤ 90 ∧
    (Health.handler emptyEvent ⟨none, some "unhealthy", none⟩
        ⟨"2024-01-01T00:00:00.000Z", 104857600, none⟩).checkVal "memory" = some "warning" ∧
    (Health.handler emptyEvent ⟨none, some "unhealthy", none⟩
        ⟨"2024-01-01T00:00:00.000Z", 104857600, none⟩).body.lookupStr "status" = some "degraded" ∧
    (Health.handler emptyEvent ⟨none, some "unhealthy", none⟩
        ⟨"2024-01-01T00:00:00.000Z", 104857600, none⟩).statusCode = 503 :=
  ⟨(Health.heapPercent_gt_70_iff 104857600).2 (by decide),
   (Health.heapPercent_le_90_iff 104857600).2 (by decide),
   rfl, rfl, rfl⟩

/-- C1 (amended): provided no exception is raised and neither the
`environment` nor the `region` check value equals `unhealthy`, a heap sample
in (70 %, 90 %] of 128 MiB yields `checks.memory = "warning"` with overall
status `healthy` and statusCode 200, while a heap sample above 90 % yields
`checks.memory = "unhealthy"` with overall status `degraded` and statusCode
503; a warning memory state never degrades the overall status. -/
theorem C1_memory_bands_amended (event : Event) (env : Env) (w : Health.World)
    (hth : w.thrown = none)
    (henv : jsOr env.ENVIRONMENT "dev" ≠ "unhealthy")
    (hreg : jsOr env.AWS_REGION "unknown" ≠ "unhealthy") :
    (Health.heapPercent w.heapUsed > 70 → Health.heapPercent w.heapUsed ≤ 90 →
      (Health.handler event env w).checkVal "memory" = some "warning" ∧
      (Health.handler event env w).body.lookupStr "status" = some "healthy" ∧
      (Health.handler event env w).statusCode = 200) ∧
    (Health.heapPercent w.heapUsed > 90 →
      (Health.handler event env w).checkVal "memory" = some "unhealthy" ∧
      (Health.handler event env w).body.lookupStr "status" = some "degraded" ∧
      (Health.handler event env w).statusCode = 503) := by
  rw [health_handler_none_eq event env w hth]
  constructor
  · intro h70 h90
    rw [Health.checkMemory_of_warning_band w.heapUsed h70 h90]
    simp [Response.checkVal, Json.lookupStr, Json.lookup, List.lookup, henv, hreg]
  · intro h90
    rw [Health.checkMemory_of_gt_90 w.heapUsed h90]
    simp [Response.checkVal, Json.lookupStr, Json.lookup, List.lookup]

/-- Witness for C1 (amended): with no variables set, heap samples of
78.125 % and 99.21875 % exercise both bands. -/
theorem C1_memory_bands_amended_witness :
    (Health.handler emptyEvent emptyEnv ⟨"t", 104857600, none⟩).statusCode = 200 ∧
    (Health.handler emptyEvent emptyEnv ⟨"t", 133169152, none⟩).statusCode = 503 :=
  ⟨((C1_memory_bands_amended emptyEvent emptyEnv ⟨"t", 104857600, none⟩ rfl
       (by decide) (by decide)).1
      ((Health.heapPercent_gt_70_iff 104857600).2 (by decide))
      ((Health.heapPercent_le_90_iff 104857600).2 (by decide))).2.2,
   ((C1_memory_bands_amended emptyEvent emptyEnv ⟨"t", 133169152, none⟩ rfl
       (by decide) (by decide)).2
      ((Health.heapPercent_gt_90_iff 133169152).2 (by decide))).2.2⟩

/-- Both branches of the greeting handler put the extracted requestId in the
body's `requestId` field. -/
lemma hello_body_requestId (event : Event) (env : Env) (w : Hello.World) :
    (Hello.handler event env w).body.lookupStr "requestId" = some (extractRequestId event) := by
  cases hth : w.thrown with
  | some e =>
    rw [hello_handler_some_eq event env w e hth]
    rfl
  | none =>
    rw [hello_handler_none_eq event env w hth]
    rfl

/-- The health handler's catch branch puts the extracted requestId in the
body's `requestId` field. -/
lemma health_body_requestId_some (event : Event) (env : Env) (w : Health.World)
    (e : String) (hth : w.thrown = some e) :
    (Health.handler event env w).body.lookupStr "requestId" = some (extractRequestId event) := by
  rw [health_handler_some_eq event env w e hth]
  rfl

/-- C3: for every input event, when no exception is raised the greeting
handler returns statusCode 200 and a body whose `message` field is
`Hello World!`, and its result does not depend on the HTTP method. -/
theorem C3_greeting_success (event : Event) (env : Env) (w : Hello.World)
    (hth : w.thrown = none) :
    (Hello.handler event env w).statusCode = 200 ∧
    (Hello.handler event env w).body.lookupStr "message" = some "Hello World!" ∧
    ∀ m : Option String, Hello.handler { event with httpMethod := m } env w
      = Hello.handler event env w := by
  refine ⟨?_, ?_, fun m => rfl⟩
  · rw [hello_handler_none_eq event env w hth]
  · rw [hello_handler_none_eq event env w hth]
    rfl

/-- Witness for C3: the spec's scenario event `GET /hello`, requestId
`abc-1`. -/
theorem C3_greeting_success_witness :
    (Hello.handler evAbc emptyEnv ⟨"t", 3, 7, none⟩).statusCode = 200 ∧
    (Hello.handler evAbc emptyEnv ⟨"t", 3, 7, none⟩).body.lookupStr "message"
      = some "Hello World!" :=
  ⟨(C3_greeting_success evAbc emptyEnv ⟨"t", 3, 7, none⟩ rfl).1,
   (C3_greeting_success evAbc emptyEnv ⟨"t", 3, 7, none⟩ rfl).2.1⟩

/-- C4: an exception raised inside either handler's try block is caught and
converted into a well-formed error response: the greeting handler returns
500 with body `error = "Internal Server Error"` and the requestId, the
health handler returns 503 with body `status = "unhealthy"`; no exception
escapes (the handlers are total functions of the embedding). -/
theorem C4_exceptions_caught (event : Event) (env : Env)
    (wg : Hello.World) (wh : Health.World) (e₁ e₂ : String)
    (h₁ : wg.thrown = some e₁) (h₂ : wh.thrown = some e₂) :
    (Hello.handler event env wg).statusCode = 500 ∧
    (Hello.handler event env wg).body.lookupStr "error" = some "Internal Server Error" ∧
    (Hello.handler event env wg).body.lookupStr "requestId" = some (extractRequestId event) ∧
    (Health.handler event env wh).statusCode = 503 ∧
    (Health.handler event env wh).body.lookupStr "status" = some "unhealthy" := by
  rw [hello_handler_some_eq event env wg e₁ h₁, health_handler_some_eq event env wh e₂ h₂]
  exact ⟨rfl, rfl, rfl, rfl, rfl⟩

/-- Witness for C4: both handlers with a raised exception `boom`. -/
theorem C4_exceptions_caught_witness :
    (Hello.handler evAbc emptyEnv ⟨"t", 0, 0, some "boom"⟩).statusCode = 500 ∧
    (Health.handler evAbc emptyEnv ⟨"t", 0, some "boom"⟩).statusCode = 503 :=
  ⟨(C4_exceptions_caught evAbc emptyEnv ⟨"t", 0, 0, some "boom"⟩ ⟨"t", 0, some "boom"⟩
      "boom" "boom" rfl rfl).1,
   (C4_exceptions_caught evAbc emptyEnv ⟨"t", 0, 0, some "boom"⟩ ⟨"t", 0, some "boom"⟩
      "boom" "boom" rfl rfl).2.2.2.1⟩

/-- C5 counterexample: a `requestContext.requestId` that is present but equal
to the empty string is not echoed back; both response carriers hold
`unknown` instead, so the claim's `equals the input requestId when the field
is present` fails at this input. -/
theorem C5_empty_requestId_counterexample :
    (⟨none, none, some ⟨some "", none⟩⟩ : Event).requestContext.bind (fun rc => rc.requestId)
      = some "" ∧
    (Hello.handler ⟨none, none, some ⟨some "", none⟩⟩ emptyEnv ⟨"t", 0, 0, none⟩).headerVal
      "X-Request-Id" = some "unknown" ∧
    (Hello.handler ⟨none, none, some ⟨some "", none⟩⟩ emptyEnv ⟨"t", 0, 0, none⟩).body.lookupStr
      "requestId" = some "unknown" ∧
    "unknown" ≠ "" :=
  ⟨rfl, rfl, rfl, by decide⟩

/-- C5 (amended): the requestId echoed in the `X-Request-Id` header and, on
every path whose body carries one, in the body's `requestId` field, equals
the input's `requestContext.requestId` when that field is present and
non-empty, and equals `unknown` when it is absent, in both handlers and on
both the success and error paths. -/
theorem C5_requestId_amended (event : Event) (env : Env)
    (wg : Hello.World) (wh : Health.World) :
    (∀ rc s, event.requestContext = some rc → rc.requestId = some s → s ≠ "" →
      (Hello.handler event env wg).headerVal "X-Request-Id" = some s ∧
      (Hello.handler event env wg).body.lookupStr "requestId" = some s ∧
      (Health.handler event env wh).headerVal "X-Request-Id" = some s ∧
      (∀ e, wh.thrown = some e →
        (Health.handler event env wh).body.lookupStr "requestId" = some s)) ∧
    (event.requestContext.bind (fun rc => rc.requestId) = none →
      (Hello.handler event env wg).headerVal "X-Request-Id" = some "unknown" ∧
      (Hello.handler event env wg).body.lookupStr "requestId" = some "unknown" ∧
      (Health.handler event env wh).headerVal "X-Request-Id" = some "unknown" ∧
      (∀ e, wh.thrown = some e →
        (Health.handler event env wh).body.lookupStr "requestId" = some "unknown")) := by
  constructor
  · intro rc s hrc hrid hs
    have hext : extractRequestId event = s := by
      simp [extractRequestId, hrc, hrid, jsOr, hs]
    refine ⟨?_, ?_, ?_, ?_⟩
    · rw [hello_headerVal_requestId event env wg, hext]
    · rw [hello_body_requestId event env wg, hext]
    · rw [health_headerVal_requestId event env wh, hext]
    · intro e hth
      rw [health_body_requestId_some event env wh e hth, hext]
  · intro hnone
    have hext : extractRequestId event = "unknown" := by
      simp [extractRequestId, hnone, jsOr]
    refine ⟨?_, ?_, ?_, ?_⟩
    · rw [hello_headerVal_requestId event env wg, hext]
    · rw [hello_body_requestId event env wg, hext]
    · rw [health_headerVal_requestId event env wh, hext]
    · intro e hth
      rw [health_body_requestId_some event env wh e hth, hext]

/-- Witness for C5 (amended): requestId `abc-1` is echoed by the greeting
handler's success path and the health handler's error path. -/
theorem C5_requestId_amended_witness :
    (Hello.handler evAbc emptyEnv ⟨"t", 0, 0, none⟩).headerVal "X-Request-Id" = some "abc-1" ∧
    (Health.handler evAbc emptyEnv ⟨"t", 0, some "boom"⟩).body.lookupStr "requestId"
      = some "abc-1" := by
  have h := (C5_requestId_amended evAbc emptyEnv ⟨"t", 0, 0, none⟩ ⟨"t", 0, some "boom"⟩).1
    ⟨some "abc-1", none⟩ "abc-1" rfl rfl (by decide)
  exact ⟨h.1, h.2.2.2 "boom" rfl⟩

/-- C6 counterexample: with `API_VERSION` and `ENVIRONMENT` both set to the
empty string, the greeting response carries the defaults `1.0.0` and `dev`,
not the set (empty) values, so the claim's `equal the values whenever set`
fails at this input. -/
theorem C6_empty_env_counterexample :
    (Env.mk (some "") (some "") none).API_VERSION = some "" ∧
    (Hello.handler emptyEvent ⟨some "", some "", none⟩ ⟨"t", 0, 0, none⟩).body.lookupStr
      "version" = some "1.0.0" ∧
    (Hello.handler emptyEvent ⟨some "", some "", none⟩ ⟨"t", 0, 0, none⟩).body.lookupStr
      "environment" = some "dev" ∧
    some "1.0.0" ≠ some ("" : String) ∧ some "dev" ≠ some ("" : String) :=
  ⟨rfl, rfl, rfl, by decide, by decide⟩

/-- C6 (amended): the `version` and `environment` fields of the greeting
response equal `API_VERSION` / `ENVIRONMENT` whenever those variables are
set to a non-empty value, and equal the defaults `1.0.0` / `dev` whenever
they are unset or set to the empty string. -/
theorem C6_env_override_amended (event : Event) (env : Env) (w : Hello.World)
    (hth : w.thrown = none) :
    (∀ v, env.API_VERSION = some v → v ≠ "" →
      (Hello.handler event env w).body.lookupStr "version" = some v) ∧
    (env.API_VERSION = none ∨ env.API_VERSION = some "" →
      (Hello.handler event env w).body.lookupStr "version" = some "1.0.0") ∧
    (∀ s, env.ENVIRONMENT = some s → s ≠ "" →
      (Hello.handler event env w).body.lookupStr "environment" = some s) ∧
    (env.ENVIRONMENT = none ∨ env.ENVIRONMENT = some "" →
      (Hello.handler event env w).body.lookupStr "environment" = some "dev") := by
  rw [hello_handler_none_eq event env w hth]
  refine ⟨?_, ?_, ?_, ?_⟩
  · intro v hv hne
    simp [Json.lookupStr, Json.lookup, List.lookup, hv, jsOr, hne]
  · rintro (hv | hv)
    · simp [Json.lookupStr, Json.lookup, List.lookup, hv, jsOr]
    · simp [Json.lookupStr, Json.lookup, List.lookup, hv, jsOr]
  · intro s hs hne
    simp [Json.lookupStr, Json.lookup, List.lookup, hs, jsOr, hne]
  · rintro (hs | hs)
    · simp [Json.lookupStr, Json.lookup, List.lookup, hs, jsOr]
    · simp [Json.lookupStr, Json.lookup, List.lookup, hs, jsOr]

/-- Witness for C6 (amended): the spec's scenario `API_VERSION=2.0.0`,
`ENVIRONMENT=prod`, plus the all-unset and the set-to-empty default cases. -/
theorem C6_env_override_amended_witness :
    (Hello.handler emptyEvent ⟨some "2.0.0", some "prod", none⟩ ⟨"t", 0, 0, none⟩).body.lookupStr
      "version" = some "2.0.0" ∧
    (Hello.handler emptyEvent ⟨some "2.0.0", some "prod", none⟩ ⟨"t", 0, 0, none⟩).body.lookupStr
      "environment" = some "prod" ∧
    (Hello.handler emptyEvent emptyEnv ⟨"t", 0, 0, none⟩).body.lookupStr
      "version" = some "1.0.0" ∧
    (Hello.handler emptyEvent emptyEnv ⟨"t", 0, 0, none⟩).body.lookupStr
      "environment" = some "dev" ∧
    (Hello.handler emptyEvent ⟨some "", some "", none⟩ ⟨"t", 0, 0, none⟩).body.lookupStr
      "version" = some "1.0.0" ∧
    (Hello.handler emptyEvent ⟨some "", some "", none⟩ ⟨"t", 0, 0, none⟩).body.lookupStr
      "environment" = some "dev" :=
  ⟨(C6_env_override_amended emptyEvent ⟨some "2.0.0", some "prod", none⟩
      ⟨"t", 0, 0, none⟩ rfl).1 "2.0.0" rfl (by decide),
   (C6_env_override_amended emptyEvent ⟨some "2.0.0", some "prod", none⟩
      ⟨"t", 0, 0, none⟩ rfl).2.2.1 "prod" rfl (by decide),
   (C6_env_override_amended emptyEvent emptyEnv ⟨"t", 0, 0, none⟩ rfl).2.1 (Or.inl rfl),
   (C6_env_override_amended emptyEvent emptyEnv ⟨"t", 0, 0, none⟩ rfl).2.2.2 (Or.inl rfl),
   (C6_env_override_amended emptyEvent ⟨some "", some "", none⟩
      ⟨"t", 0, 0, none⟩ rfl).2.1 (Or.inr rfl),
   (C6_env_override_amended emptyEvent ⟨some "", some "", none⟩
      ⟨"t", 0, 0, none⟩ rfl).2.2.2 (Or.inr rfl)⟩

/-- C7: every response of either handler, on every path, has the mandated
shape (its body is a JSON object; headers are a string-to-string map and
statusCode a number by construction), with statusCode in 200/500 for the
greeting handler and 200/503 for the health handler. -/
theorem C7_response_shape (event : Event) (env : Env)
    (wg : Hello.World) (wh : Health.World) :
    ((Hello.handler event env wg).statusCode = 200 ∨
     (Hello.handler event env wg).statusCode = 500) ∧
    (Hello.handler event env wg).body.isObj = true ∧
    ((Health.handler event env wh).statusCode = 200 ∨
     (Health.handler event env wh).statusCode = 503) ∧
    (Health.handler event env wh).body.isObj = true := by
  refine ⟨?_, ?_, ?_, ?_⟩
  · cases hth : wg.thrown with
    | some e => exact Or.inr (by rw [hello_handler_some_eq event env wg e hth])
    | none => exact Or.inl (by rw [hello_handler_none_eq event env wg hth])
  · cases hth : wg.thrown with
    | some e =>
      rw [hello_handler_some_eq event env wg e hth]
      rfl
    | none =>
      rw [hello_handler_none_eq event env wg hth]
      rfl
  · cases hth : wh.thrown with
    | some e => exact Or.inr (by rw [health_handler_some_eq event env wh e hth])
    | none =>
      rw [health_handler_none_eq event env wh hth]
      rcases Bool.eq_false_or_eq_true
        ((Health.checkMemory wh.heapUsed != "unhealthy") &&
         ((jsOr env.ENVIRONMENT "dev" != "unhealthy") &&
          ((jsOr env.AWS_REGION "unknown" != "unhealthy") && true))) with hb | hb
      · exact Or.inl (by rw [hb]; rfl)
      · exact Or.inr (by rw [hb]; rfl)
  · cases hth : wh.thrown with
    | some e =>
      rw [health_handler_some_eq event env wh e hth]
      rfl
    | none =>
      rw [health_handler_none_eq event env wh hth]
      rfl

/-- C8: when the input's `requestContext` is entirely absent, neither handler
fails (both are total functions of the embedding; the optional chaining of
line 22 never throws) and both still return a response whose requestId is
`unknown`, on every path. -/
theorem C8_missing_requestContext (event : Event) (env : Env)
    (wg : Hello.World) (wh : Health.World) (hrc : event.requestContext = none) :
    (Hello.handler event env wg).headerVal "X-Request-Id" = some "unknown" ∧
    (Hello.handler event env wg).body.lookupStr "requestId" = some "unknown" ∧
    (Health.handler event env wh).headerVal "X-Request-Id" = some "unknown" := by
  have hext : extractRequestId event = "unknown" := by
    simp [extractRequestId, hrc, jsOr]
  rw [hello_headerVal_requestId event env wg, hello_body_requestId event env wg,
      health_headerVal_requestId event env wh, hext]
  exact ⟨rfl, rfl, rfl⟩

/-- Witness for C8: the all-absent event, greeting success path and health
error path. -/
theorem C8_missing_requestContext_witness :
    (Hello.handler emptyEvent emptyEnv ⟨"t", 0, 0, none⟩).headerVal "X-Request-Id"
      = some "unknown" ∧
    (Health.handler emptyEvent emptyEnv ⟨"t", 0, some "boom"⟩).headerVal "X-Request-Id"
      = some "unknown" :=
  ⟨(C8_missing_requestContext emptyEvent emptyEnv ⟨"t", 0, 0, none⟩
      ⟨"t", 0, some "boom"⟩ rfl).1,
   (C8_missing_requestContext emptyEvent emptyEnv ⟨"t", 0, 0, none⟩
      ⟨"t", 0, some "boom"⟩ rfl).2.2⟩

/-- C9: the overall health status is derived from every entry of the checks
map: whenever `ENVIRONMENT` or `AWS_REGION` is set to the literal string
`unhealthy` (and no exception is raised), the overall status is `degraded`
and the statusCode 503, with no condition on the heap sample. -/
theorem C9_overall_uses_all_checks (event : Event) (env : Env) (w : Health.World)
    (hth : w.thrown = none)
    (hbad : env.ENVIRONMENT = some "unhealthy" ∨ env.AWS_REGION = some "unhealthy") :
    (Health.handler event env w).body.lookupStr "status" = some "degraded" ∧
    (Health.handler event env w).statusCode = 503 := by
  rw [health_handler_none_eq event env w hth]
  rcases hbad with hb | hb
  · simp [Json.lookupStr, Json.lookup, List.lookup, hb, jsOr]
  · simp [Json.lookupStr, Json.lookup, List.lookup, hb, jsOr]

/-- Witness for C9: heap sample 0 (0 % ≤ 70 %) with each of the two
variables set to `unhealthy` in turn still gives 503. -/
theorem C9_overall_uses_all_checks_witness :
    Health.heapPercent 0 ≤ 70 ∧
    (Health.handler emptyEvent ⟨none, some "unhealthy", none⟩ ⟨"t", 0, none⟩).statusCode
      = 503 ∧
    (Health.handler emptyEvent ⟨none, none, some "unhealthy"⟩ ⟨"t", 0, none⟩).statusCode
      = 503 :=
  ⟨(Health.heapPercent_le_70_iff 0).2 (by decide),
   (C9_overall_uses_all_checks emptyEvent ⟨none, some "unhealthy", none⟩
      ⟨"t", 0, none⟩ rfl (Or.inl rfl)).2,
   (C9_overall_uses_all_checks emptyEvent ⟨none, none, some "unhealthy"⟩
      ⟨"t", 0, none⟩ rfl (Or.inr rfl)).2⟩

/-- C10: a present but empty `requestContext.requestId` is treated as absent
(JavaScript `||` falls through on the empty string): both handlers answer
with requestId `unknown`; consequently the echoed requestId of either
handler is never the empty string. -/
theorem C10_empty_requestId (event : Event) (env : Env)
    (wg : Hello.World) (wh : Health.World) :
    (∀ rc, event.requestContext = some rc → rc.requestId = some "" →
      (Hello.handler event env wg).headerVal "X-Request-Id" = some "unknown" ∧
      (Hello.handler event env wg).body.lookupStr "requestId" = some "unknown" ∧
      (Health.handler event env wh).headerVal "X-Request-Id" = some "unknown") ∧
    (Hello.handler event env wg).headerVal "X-Request-Id" ≠ some "" ∧
    (Health.handler event env wh).headerVal "X-Request-Id" ≠ some "" := by
  have hne : extractRequestId event ≠ "" :=
    jsOr_ne_empty (event.requestContext.bind fun rc => rc.requestId) "unknown" (by decide)
  refine ⟨?_, ?_, ?_⟩
  · intro rc hrc hrid
    have hext : extractRequestId event = "unknown" := by
      simp [extractRequestId, hrc, hrid, jsOr]
    rw [hello_headerVal_requestId event env wg, hello_body_requestId event env wg,
        health_headerVal_requestId event env wh, hext]
    exact ⟨rfl, rfl, rfl⟩
  · rw [hello_headerVal_requestId event env wg]
    intro hcon
    exact hne (Option.some.inj hcon)
  · rw [health_headerVal_requestId event env wh]
    intro hcon
    exact hne (Option.some.inj hcon)

/-- Witness for C10: the event whose requestId is present and empty. -/
theorem C10_empty_requestId_witness :
    (Hello.handler ⟨none, none, some ⟨some "", none⟩⟩ emptyEnv ⟨"t", 0, 0, none⟩).headerVal
      "X-Request-Id" = some "unknown" ∧
    (Health.handler ⟨none, none, some ⟨some "", none⟩⟩ emptyEnv ⟨"t", 0, none⟩).headerVal
      "X-Request-Id" = some "unknown" :=
  ⟨((C10_empty_requestId ⟨none, none, some ⟨some "", none⟩⟩ emptyEnv ⟨"t", 0, 0, none⟩
       ⟨"t", 0, none⟩).1 ⟨some "", none⟩ rfl rfl).1,
   ((C10_empty_requestId ⟨none, none, some ⟨some "", none⟩⟩ emptyEnv ⟨"t", 0, 0, none⟩
       ⟨"t", 0, none⟩).1 ⟨some "", none⟩ rfl rfl).2.2⟩
